import Mathlib

/-!
Shallow embedding of the inheritance-tax calculator core
(`src/models/asset.py`, `src/calculator/deductions.py`,
`src/calculator/inheritance_tax.py`, `src/calculator/cases.py`).

Conventions of the embedding:

* Python integers are modelled as `ℤ`; counts derived from lists are `ℕ`.
* The Python source multiplies integer amounts by decimal rate literals
  (`0.10`, `0.20`, `0.30`, `0.40`, `0.50`, `0.03`, `1.5`) and truncates with
  `int(...)`.  Every such expression is modelled by its exact rational value:
  `int(x * (k/10))` becomes `Int.tdiv (x * k) 10` (`Int.tdiv` truncates toward
  zero exactly as Python's `int()` does), and the float ratio
  `1.5 / (1.5 + n)` is carried as the exact fraction `3 / (3 + 2*n)`
  represented by a numerator/denominator pair.
* Python `//` (floor division) is modelled by `Int.fdiv`.
* Python dictionaries of deduction line items are modelled as association
  lists `List (String × ℤ)` in insertion order; the keys produced by one call
  are pairwise distinct, so the association list carries the same information.
* Python `min` over a list with a `key` function is modelled by a left fold
  that keeps the earlier element on ties, which is Python's documented
  behaviour; `compare_cases` returns `none` exactly where Python's `min`
  would raise on an empty sequence.
-/

/-- Asset record (`models/asset.py`, class `Asset`). -/
structure Asset where
  real_estate : ℤ := 0
  financial : ℤ := 0
  securities : ℤ := 0
  cash : ℤ := 0
  insurance : ℤ := 0
  retirement : ℤ := 0
  trust : ℤ := 0
  other : ℤ := 0
deriving DecidableEq

/-- `Asset.total`: sum of all eight asset fields. -/
def Asset.total (a : Asset) : ℤ :=
  a.real_estate + a.financial + a.securities + a.cash + a.insurance +
    a.retirement + a.trust + a.other

/-- `Asset.net_financial`: financial + securities + insurance. -/
def Asset.net_financial (a : Asset) : ℤ :=
  a.financial + a.securities + a.insurance

/-- Child record (`models/asset.py`, class `ChildInfo`). -/
structure ChildInfo where
  age : ℤ := 30
  is_disabled : Bool := false
  life_expectancy : ℤ := 0
  is_grandchild : Bool := false
  parent_alive : Bool := true
deriving DecidableEq

/-- `ChildInfo.is_minor`: age < 19. -/
def ChildInfo.is_minor (c : ChildInfo) : Bool :=
  c.age < 19

/-- `ChildInfo.years_to_adult`: 19 - age while a minor, otherwise 0. -/
def ChildInfo.years_to_adult (c : ChildInfo) : ℤ :=
  if c.is_minor then 19 - c.age else 0

/-- Spouse record (`models/asset.py`, class `SpouseInfo`). -/
structure SpouseInfo where
  exists' : Bool := false
  age : ℤ := 60
  is_disabled : Bool := false
  life_expectancy : ℤ := 0
  prior_gift : ℤ := 0
  prior_gift_tax : ℤ := 0
deriving DecidableEq

/-- `SpouseInfo.is_elderly`: age ≥ 65. -/
def SpouseInfo.is_elderly (s : SpouseInfo) : Bool :=
  65 ≤ s.age

/-- Heir record (`models/asset.py`, class `Heir`). -/
structure Heir where
  spouse : SpouseInfo := {}
  children : List ChildInfo := []
  num_elderly_parents : ℕ := 0
deriving DecidableEq

/-- `Heir.has_spouse`. -/
def Heir.has_spouse (h : Heir) : Bool :=
  h.spouse.exists'

/-- `Heir.num_children`. -/
def Heir.num_children (h : Heir) : ℕ :=
  h.children.length

/-- `Heir.num_minor_children`. -/
def Heir.num_minor_children (h : Heir) : ℕ :=
  (h.children.filter (fun c => c.is_minor)).length

/-- `Heir.num_disabled` (children plus a disabled spouse). -/
def Heir.num_disabled (h : Heir) : ℕ :=
  (h.children.filter (fun c => c.is_disabled)).length +
    (if h.spouse.exists' && h.spouse.is_disabled then 1 else 0)

/-- `Heir.num_elderly_children`: children aged 65 or older. -/
def Heir.num_elderly_children (h : Heir) : ℕ :=
  (h.children.filter (fun c => 65 ≤ c.age)).length

/-- `Heir.total_heirs`: children + elderly parents + 1 if a spouse exists. -/
def Heir.total_heirs (h : Heir) : ℕ :=
  h.num_children + h.num_elderly_parents + (if h.has_spouse then 1 else 0)

/-- `Heir.has_generation_skip`: some child is flagged as a grandchild. -/
def Heir.has_generation_skip (h : Heir) : Bool :=
  h.children.any (fun c => c.is_grandchild)

/-- Debt/cost inputs (`models/asset.py`, class `Deductions`). -/
structure Deductions where
  public_charges : ℤ := 0
  funeral_expense : ℤ := 0
  funeral_memorial : ℤ := 0
  debt : ℤ := 0
deriving DecidableEq

/-- Prior-gift record (`models/asset.py`, class `PriorGift`). -/
structure PriorGift where
  to_heir_10yr : ℤ := 0
  to_heir_10yr_tax : ℤ := 0
  to_others_5yr : ℤ := 0
  to_others_5yr_tax : ℤ := 0
  business_succession : ℤ := 0
  business_succession_tax : ℤ := 0
deriving DecidableEq

/-- `PriorGift.total`: sum of the three gift amounts. -/
def PriorGift.total (p : PriorGift) : ℤ :=
  p.to_heir_10yr + p.to_others_5yr + p.business_succession

/-- `PriorGift.total_tax_paid`: sum of the three paid-tax amounts. -/
def PriorGift.total_tax_paid (p : PriorGift) : ℤ :=
  p.to_heir_10yr_tax + p.to_others_5yr_tax + p.business_succession_tax

/-- Co-residence record (`models/asset.py`, class `CoResidenceInfo`). -/
structure CoResidenceInfo where
  eligible : Bool := false
  house_value : ℤ := 0
  co_residence_years : ℤ := 0
  heir_is_homeless : Bool := false
deriving DecidableEq

/-- Full estate record (`models/asset.py`, class `InheritanceInfo`). -/
structure InheritanceInfo where
  asset : Asset := {}
  heir : Heir := {}
  deductions : Deductions := {}
  prior_gift : PriorGift := {}
  co_residence : CoResidenceInfo := {}
  file_on_time : Bool := true
deriving DecidableEq

/-- `InheritanceInfo.total_inheritance`: assets plus pulled-back prior gifts. -/
def InheritanceInfo.total_inheritance (i : InheritanceInfo) : ℤ :=
  i.asset.total + i.prior_gift.total

/-- `InheritanceInfo.total_debt_deduction`: public charges, funeral cost
clamped to [5,000,000, 10,000,000], memorial cost capped at 5,000,000, and
debt capped at the total assets. -/
def InheritanceInfo.total_debt_deduction (i : InheritanceInfo) : ℤ :=
  i.deductions.public_charges +
    max 5000000 (min i.deductions.funeral_expense 10000000) +
    min i.deductions.funeral_memorial 5000000 +
    min i.deductions.debt i.asset.total

/-- `InheritanceInfo.net_inheritance`: taxable base before deductions,
clamped at 0. -/
def InheritanceInfo.net_inheritance (i : InheritanceInfo) : ℤ :=
  max 0 (i.asset.total + i.prior_gift.total - i.total_debt_deduction)

/-! ### `calculator/deductions.py` -/

/-- `BASIC_DEDUCTION` (200,000,000). -/
def BASIC_DEDUCTION : ℤ := 200000000

/-- `LUMP_SUM_DEDUCTION` (500,000,000). -/
def LUMP_SUM_DEDUCTION : ℤ := 500000000

/-- `SPOUSE_MIN_DEDUCTION` (500,000,000). -/
def SPOUSE_MIN_DEDUCTION : ℤ := 500000000

/-- `SPOUSE_MAX_DEDUCTION` (3,000,000,000). -/
def SPOUSE_MAX_DEDUCTION : ℤ := 3000000000

/-- `CHILD_DEDUCTION` (50,000,000 per child). -/
def CHILD_DEDUCTION : ℤ := 50000000

/-- `MINOR_DEDUCTION_PER_YEAR` (10,000,000). -/
def MINOR_DEDUCTION_PER_YEAR : ℤ := 10000000

/-- `ELDERLY_DEDUCTION` (50,000,000). -/
def ELDERLY_DEDUCTION : ℤ := 50000000

/-- `DISABLED_DEDUCTION_PER_YEAR` (10,000,000). -/
def DISABLED_DEDUCTION_PER_YEAR : ℤ := 10000000

/-- `FINANCIAL_FULL_THRESHOLD` (20,000,000). -/
def FINANCIAL_FULL_THRESHOLD : ℤ := 20000000

/-- `FINANCIAL_FIXED_THRESHOLD` (100,000,000). -/
def FINANCIAL_FIXED_THRESHOLD : ℤ := 100000000

/-- `FINANCIAL_FIXED_DEDUCTION` (20,000,000). -/
def FINANCIAL_FIXED_DEDUCTION : ℤ := 20000000

/-- `FINANCIAL_MAX_DEDUCTION` (200,000,000). -/
def FINANCIAL_MAX_DEDUCTION : ℤ := 200000000

/-- `CO_RESIDENCE_MAX_DEDUCTION` (600,000,000). -/
def CO_RESIDENCE_MAX_DEDUCTION : ℤ := 600000000

/-- `CO_RESIDENCE_MIN_YEARS` (10). -/
def CO_RESIDENCE_MIN_YEARS : ℤ := 10

/-- Base-deduction mode (`deductions.py`, enum `DeductionType`). -/
inductive DeductionType where
  | LUMP_SUM
  | ITEMIZED
deriving DecidableEq

/-- `calculate_child_deduction`: 50,000,000 per child. -/
def calculate_child_deduction (info : InheritanceInfo) : ℤ :=
  (info.heir.num_children : ℤ) * CHILD_DEDUCTION

/-- `calculate_minor_deduction`: (19 - age) × 10,000,000 summed over minor
children. -/
def calculate_minor_deduction (info : InheritanceInfo) : ℤ :=
  (info.heir.children.map (fun c =>
    if c.is_minor then c.years_to_adult * MINOR_DEDUCTION_PER_YEAR else 0)).sum

/-- `calculate_elderly_deduction`: 50,000,000 per heir aged 65+ (children and
ascendants; the spouse is excluded). -/
def calculate_elderly_deduction (info : InheritanceInfo) : ℤ :=
  ((info.heir.num_elderly_children : ℤ) + (info.heir.num_elderly_parents : ℤ)) *
    ELDERLY_DEDUCTION

/-- `calculate_disabled_deduction`: life expectancy × 10,000,000 over disabled
children, plus the spouse's share when the spouse exists and is disabled. -/
def calculate_disabled_deduction (info : InheritanceInfo) : ℤ :=
  (info.heir.children.map (fun c =>
    if c.is_disabled then c.life_expectancy * DISABLED_DEDUCTION_PER_YEAR else 0)).sum +
    (if info.heir.spouse.exists' && info.heir.spouse.is_disabled then
      info.heir.spouse.life_expectancy * DISABLED_DEDUCTION_PER_YEAR
    else 0)

/-- `calculate_personal_deductions`: the personal line items, each added to the
mapping only when positive. -/
def calculate_personal_deductions (info : InheritanceInfo) : List (String × ℤ) :=
  (if 0 < calculate_child_deduction info then
    [("자녀공제", calculate_child_deduction info)] else []) ++
  (if 0 < calculate_minor_deduction info then
    [("미성년자공제", calculate_minor_deduction info)] else []) ++
  (if 0 < calculate_elderly_deduction info then
    [("연로자공제", calculate_elderly_deduction info)] else []) ++
  (if 0 < calculate_disabled_deduction info then
    [("장애인공제", calculate_disabled_deduction info)] else [])

/-- `calculate_spouse_legal_share`: the Python function returns the float
`1.5 / (1.5 + num_children)` (1.0 with no children, 0.0 with no spouse); the
value is modelled by the exact fraction `3 / (3 + 2n)` as a
numerator/denominator pair. -/
def calculate_spouse_legal_share (info : InheritanceInfo) : ℤ × ℤ :=
  if !info.heir.has_spouse then (0, 1)
  else if info.heir.num_children = 0 then (1, 1)
  else (3, 3 + 2 * (info.heir.num_children : ℤ))

/-- `calculate_spouse_deduction`: floor of 500,000,000 below that allocation,
otherwise the legal share (gift-adjusted) capped at 3,000,000,000 and at the
actual allocation; both branches are finally capped at the taxable value. -/
def calculate_spouse_deduction (info : InheritanceInfo)
    (spouse_inheritance_amount : ℤ) : ℤ :=
  if !info.heir.has_spouse then 0
  else
    let taxable_value := info.net_inheritance
    if taxable_value ≤ 0 then 0
    else
      let r := calculate_spouse_legal_share info
      let legal_share_amount := Int.tdiv (taxable_value * r.1) r.2
      let legal_share_after_gift := legal_share_amount - info.heir.spouse.prior_gift
      let deduction :=
        if spouse_inheritance_amount < SPOUSE_MIN_DEDUCTION then
          SPOUSE_MIN_DEDUCTION
        else
          min (min SPOUSE_MAX_DEDUCTION (max 0 legal_share_after_gift))
            spouse_inheritance_amount
      min deduction taxable_value

/-- `calculate_financial_deduction`: full pass-through under 20,000,000, a
fixed 20,000,000 up to 100,000,000, then 20% capped at 200,000,000
(`int(net_financial * 0.20)` is the truncated exact product). -/
def calculate_financial_deduction (info : InheritanceInfo) : ℤ :=
  let net_financial := info.asset.net_financial
  if net_financial < FINANCIAL_FULL_THRESHOLD then net_financial
  else if net_financial ≤ FINANCIAL_FIXED_THRESHOLD then FINANCIAL_FIXED_DEDUCTION
  else min (Int.tdiv (net_financial * 2) 10) FINANCIAL_MAX_DEDUCTION

/-- `calculate_co_residence_deduction`: requires eligibility, 10+ years of
co-residence and a homeless heir; then the house value capped at
600,000,000. -/
def calculate_co_residence_deduction (info : InheritanceInfo) : ℤ :=
  if !info.co_residence.eligible then 0
  else if info.co_residence.co_residence_years < CO_RESIDENCE_MIN_YEARS then 0
  else if !info.co_residence.heir_is_homeless then 0
  else min info.co_residence.house_value CO_RESIDENCE_MAX_DEDUCTION

/-- `calculate_itemized_deductions`: basic deduction plus the personal
items. -/
def calculate_itemized_deductions (info : InheritanceInfo) : List (String × ℤ) :=
  [("기초공제", BASIC_DEDUCTION)] ++ calculate_personal_deductions info

/-- `get_optimal_base_deduction_type`: itemized when its total beats the lump
sum. -/
def get_optimal_base_deduction_type (info : InheritanceInfo) : DeductionType :=
  if LUMP_SUM_DEDUCTION < ((calculate_itemized_deductions info).map Prod.snd).sum then
    DeductionType.ITEMIZED
  else
    DeductionType.LUMP_SUM

/-- `calculate_deductions`: base deduction (by mode), spousal deduction (only
with a spouse and a positive allocation), financial deduction and
co-residence deduction; zero line items are omitted. -/
def calculate_deductions (info : InheritanceInfo) (deduction_type : DeductionType)
    (spouse_inheritance_amount : ℤ) : List (String × ℤ) :=
  (if deduction_type = DeductionType.LUMP_SUM then
    [("일괄공제", LUMP_SUM_DEDUCTION)]
  else
    calculate_itemized_deductions info) ++
  (if info.heir.has_spouse && 0 < spouse_inheritance_amount then
    (if 0 < calculate_spouse_deduction info spouse_inheritance_amount then
      [("배우자공제", calculate_spouse_deduction info spouse_inheritance_amount)]
    else [])
  else []) ++
  (if 0 < calculate_financial_deduction info then
    [("금융재산공제", calculate_financial_deduction info)] else []) ++
  (if 0 < calculate_co_residence_deduction info then
    [("동거주택공제", calculate_co_residence_deduction info)] else [])

/-! ### `calculator/inheritance_tax.py` -/

/-- `TAX_BRACKETS`: (upper bound, rate numerator over 10, cumulative
subtraction).  The Python rates `0.10 … 0.50` are the exact decimals
`1/10 … 5/10`; the final `float('inf')` bound is `none`. -/
def TAX_BRACKETS : List (Option ℤ × ℤ × ℤ) :=
  [(some 100000000, 1, 0),
   (some 500000000, 2, 10000000),
   (some 1000000000, 3, 60000000),
   (some 3000000000, 4, 160000000),
   (none, 5, 460000000)]

/-- `GENERATION_SKIP_MINOR_THRESHOLD` (2,000,000,000). -/
def GENERATION_SKIP_MINOR_THRESHOLD : ℤ := 2000000000

/-- The loop guard `taxable_amount <= bracket` (always true on the infinite
last bound). -/
def bracket_matches (t : ℤ) : Option ℤ × ℤ × ℤ → Bool
  | (some u, _, _) => t ≤ u
  | (none, _, _) => true

/-- One bracket row's value `int(taxable_amount * rate - deduction)` with
`rate = k/10`: the exact value is `(t*k - 10*d) / 10` truncated toward
zero. -/
def bracket_value (t : ℤ) : Option ℤ × ℤ × ℤ → ℤ
  | (_, k, d) => Int.tdiv (t * k - 10 * d) 10

/-- The `for` loop of `calculate_tax_amount`: first matching bracket wins;
after the loop Python falls back to the last bracket (dead code, since the
last bound is infinite). -/
def tax_bracket_loop (t : ℤ) : List (Option ℤ × ℤ × ℤ) → ℤ
  | [] => bracket_value t (TAX_BRACKETS.getLastD (none, 0, 0))
  | b :: rest => if bracket_matches t b then bracket_value t b else tax_bracket_loop t rest

/-- `calculate_tax_amount`: 0 on a non-positive base, otherwise the first
matching bracket's value. -/
def calculate_tax_amount (taxable_amount : ℤ) : ℤ :=
  if taxable_amount ≤ 0 then 0
  else tax_bracket_loop taxable_amount TAX_BRACKETS

/-- The fallback loop of `calculate_generation_skip_surcharge`: when no
explicit grandchild amount was given, each grandchild child entry with a
living parent assigns `taxable_inheritance // total_heirs` (the same value on
every iteration, and only when there is at least one heir). -/
def generation_skip_fallback_amount (info : InheritanceInfo)
    (taxable_inheritance : ℤ) : ℤ :=
  if info.heir.children.any (fun c => c.is_grandchild && c.parent_alive) &&
      decide (0 < info.heir.total_heirs) then
    Int.fdiv taxable_inheritance (info.heir.total_heirs : ℤ)
  else 0

/-- `calculate_generation_skip_surcharge`: surcharge on a bequest that skips
a generation.  The final line `int(base_tax * (skip/ti) * rate)` with
`rate = r/10` is the exact value `(base_tax * skip * r) / (ti * 10)`
truncated toward zero. -/
def calculate_generation_skip_surcharge (base_tax : ℤ) (info : InheritanceInfo)
    (taxable_inheritance : ℤ) (grandchild_amount : ℤ)
    (grandchild_is_minor : Bool) : ℤ :=
  if !info.heir.has_generation_skip && grandchild_amount = 0 then 0
  else if taxable_inheritance ≤ 0 then 0
  else
    let skip_amount :=
      if grandchild_amount = 0 then
        generation_skip_fallback_amount info taxable_inheritance
      else grandchild_amount
    if skip_amount = 0 then 0
    else
      let is_minor := grandchild_is_minor ||
        info.heir.children.any (fun c => c.is_grandchild && c.is_minor)
      let rate_num : ℤ :=
        if is_minor && GENERATION_SKIP_MINOR_THRESHOLD < skip_amount then 4 else 3
      Int.tdiv (base_tax * skip_amount * rate_num) (taxable_inheritance * 10)

/-- `calculate_filing_credit`: `int(calculated_tax * 0.03)` when filed on
time, i.e. the exact value `calculated_tax * 3 / 100` truncated toward
zero. -/
def calculate_filing_credit (calculated_tax : ℤ) (file_on_time : Bool) : ℤ :=
  if file_on_time then Int.tdiv (calculated_tax * 3) 100 else 0

/-- Result record (`inheritance_tax.py`, dataclass `TaxResult`). -/
structure TaxResult where
  total_inheritance : ℤ
  taxable_inheritance : ℤ
  total_deduction : ℤ
  taxable_amount : ℤ
  calculated_tax : ℤ
  generation_surcharge : ℤ
  filing_credit : ℤ
  prior_gift_tax_credit : ℤ
  final_tax : ℤ
  deduction_detail : List (String × ℤ)
deriving DecidableEq

/-- `calculate_inheritance_tax`: the ten numbered steps of the source.  The
`spouse_inheritance_ratio` parameter is accepted and, as in the source,
never read. -/
def calculate_inheritance_tax (info : InheritanceInfo)
    (deduction_detail : List (String × ℤ)) (spouse_inheritance_ratio : ℚ)
    (grandchild_amount : ℤ) (grandchild_is_minor : Bool) : TaxResult :=
  let total_inheritance := info.total_inheritance
  let taxable_inheritance := info.net_inheritance
  let total_deduction := (deduction_detail.map Prod.snd).sum
  let taxable_amount :=
    if taxable_inheritance - total_deduction < 0 then 0
    else taxable_inheritance - total_deduction
  let calculated_tax := calculate_tax_amount taxable_amount
  let generation_surcharge := calculate_generation_skip_surcharge calculated_tax
    info taxable_inheritance grandchild_amount grandchild_is_minor
  let tax_after_surcharge := calculated_tax + generation_surcharge
  let filing_credit := calculate_filing_credit tax_after_surcharge info.file_on_time
  let prior_gift_tax_credit := info.prior_gift.total_tax_paid
  let final_tax :=
    if tax_after_surcharge - filing_credit - prior_gift_tax_credit < 0 then 0
    else tax_after_surcharge - filing_credit - prior_gift_tax_credit
  { total_inheritance := total_inheritance
    taxable_inheritance := taxable_inheritance
    total_deduction := total_deduction
    taxable_amount := taxable_amount
    calculated_tax := calculated_tax
    generation_surcharge := generation_surcharge
    filing_credit := filing_credit
    prior_gift_tax_credit := prior_gift_tax_credit
    final_tax := final_tax
    deduction_detail := deduction_detail }

/-! ### `calculator/cases.py` -/

/-- Per-case result (`cases.py`, dataclass `CaseResult`). -/
structure CaseResult where
  case_name : String
  description : String
  tax_result : TaxResult
  spouse_inheritance : ℤ
  deduction_type : DeductionType
deriving DecidableEq

/-- `CaseResult.final_tax`. -/
def CaseResult.final_tax (c : CaseResult) : ℤ :=
  c.tax_result.final_tax

/-- Comparison outcome (`cases.py`, dataclass `ComparisonResult`). -/
structure ComparisonResult where
  cases : List CaseResult
  optimal_case : CaseResult
  max_savings : ℤ
deriving DecidableEq

/-- A case tuple `(케이스명, 설명, 배우자상속액, 공제유형)`. -/
abbrev CaseTuple := String × String × ℤ × DeductionType

/-- `calculate_spouse_legal_share_amount`: `int(net_inheritance * ratio)` for
the exact legal-share fraction. -/
def calculate_spouse_legal_share_amount (info : InheritanceInfo) : ℤ :=
  if !info.heir.has_spouse then 0
  else
    let r := calculate_spouse_legal_share info
    Int.tdiv (info.net_inheritance * r.1) r.2

/-- The deduplication loop of `generate_cases`: drop a case whose spousal
allocation amount was already seen, keeping the first occurrence. -/
def dedupe_cases : List CaseTuple → List ℤ → List CaseTuple
  | [], _ => []
  | c :: rest, seen =>
    if c.2.2.1 ∈ seen then dedupe_cases rest seen
    else c :: dedupe_cases rest (c.2.2.1 :: seen)

/-- The Python `case[0].split(': ')[1]`: everything after the first
`": "`. -/
def drop_case_label : List Char → List Char
  | [] => []
  | ':' :: ' ' :: rest => rest
  | _ :: rest => drop_case_label rest

/-- The relabeling loop of `generate_cases`: the i-th surviving case is
renamed `chr(ord('A') + i) + ": " + <old suffix>`; description, amount and
mode are kept. -/
def relabel_case (i : ℕ) (c : CaseTuple) : CaseTuple :=
  (String.singleton (Char.ofNat (65 + i)) ++ ": " ++
      String.mk (drop_case_label c.1.data),
    c.2.1, c.2.2.1, c.2.2.2)

/-- Python's `for i, case in enumerate(cases)` relabeling pass. -/
def relabel_all (i : ℕ) : List CaseTuple → List CaseTuple
  | [] => []
  | c :: rest => relabel_case i c :: relabel_all (i + 1) rest

/-- `generate_cases`: two fixed scenarios without a spouse; with a spouse,
the three candidate allocations (legal share, capped maximum, floored
minimum), deduplicated by allocation amount and relabeled in order. -/
def generate_cases (info : InheritanceInfo) : List CaseTuple :=
  let net_value := max 0 info.net_inheritance
  if info.heir.has_spouse then
    let legal_share := calculate_spouse_legal_share_amount info
    let max_spouse := min net_value SPOUSE_MAX_DEDUCTION
    let min_spouse := min SPOUSE_MIN_DEDUCTION net_value
    let cases : List CaseTuple :=
      [("A: 법정상속분", "배우자 법정상속분 + 일괄공제 5억", legal_share,
          DeductionType.LUMP_SUM),
       ("B: 배우자 최대", "배우자 상속 최대화 (30억 한도)", max_spouse,
          DeductionType.LUMP_SUM),
       ("C: 배우자 최소", "배우자 상속 최소화 (5억)", min_spouse,
          DeductionType.LUMP_SUM)]
    relabel_all 0 (dedupe_cases cases [])
  else
    [("A: 일괄공제", "일괄공제 5억원 적용", 0, DeductionType.LUMP_SUM),
     ("B: 항목별공제", "기초공제 2억 + 인적공제", 0, DeductionType.ITEMIZED)]

/-- The spousal allocation fraction passed (and never read) by
`compare_cases`: `spouse_amount / net_inheritance` guarded against a zero
denominator. -/
def spouse_allocation_ratio (info : InheritanceInfo) (spouse_amount : ℤ) : ℚ :=
  if 0 < info.net_inheritance then
    (spouse_amount : ℚ) / (info.net_inheritance : ℚ)
  else 0

/-- The per-scenario body of `compare_cases`. -/
def run_case (info : InheritanceInfo) (grandchild_amount : ℤ)
    (grandchild_is_minor : Bool) (c : CaseTuple) : CaseResult :=
  let deductions := calculate_deductions info c.2.2.2 c.2.2.1
  let tax_result := calculate_inheritance_tax info deductions
    (spouse_allocation_ratio info c.2.2.1) grandchild_amount grandchild_is_minor
  { case_name := c.1
    description := c.2.1
    tax_result := tax_result
    spouse_inheritance := c.2.2.1
    deduction_type := c.2.2.2 }

/-- `compare_cases`: run every generated scenario, pick the first scenario
with the lowest final tax (Python's `min` with a key), and report the spread
between the worst and the best final tax.  `none` corresponds to the case in
which Python's `min` would raise, which never happens because at least one
scenario is always generated. -/
def compare_cases (info : InheritanceInfo) (grandchild_amount : ℤ)
    (grandchild_is_minor : Bool) : Option ComparisonResult :=
  let results := (generate_cases info).map
    (run_case info grandchild_amount grandchild_is_minor)
  match results with
  | [] => none
  | r :: rs =>
    let optimal := rs.foldl
      (fun b y => if y.final_tax < b.final_tax then y else b) r
    let max_tax := (rs.map CaseResult.final_tax).foldl max r.final_tax
    let min_tax := (rs.map CaseResult.final_tax).foldl min r.final_tax
    some { cases := r :: rs, optimal_case := optimal,
           max_savings := max_tax - min_tax }

/-! ### Reference definitions taken from the specification's wording -/

/-- The spec's clamp: `clamp(x, floor, ceiling)`. -/
def spec_clamp (x lo hi : ℤ) : ℤ :=
  max lo (min x hi)

/-- The spec's reference bracket evaluator `taxOnBase` (§4.1): 0 on a
non-positive base, otherwise `floor(taxableAmount × rate) −
cumulativeSubtraction` for the first of the five rows whose upper bound is at
least the base. -/
def taxOnBase_spec (t : ℤ) : ℤ :=
  if t ≤ 0 then 0
  else if t ≤ 100000000 then ⌊(t : ℚ) * (1 / 10)⌋ - 0
  else if t ≤ 500000000 then ⌊(t : ℚ) * (2 / 10)⌋ - 10000000
  else if t ≤ 1000000000 then ⌊(t : ℚ) * (3 / 10)⌋ - 60000000
  else if t ≤ 3000000000 then ⌊(t : ℚ) * (4 / 10)⌋ - 160000000
  else ⌊(t : ℚ) * (5 / 10)⌋ - 460000000

/-- The spec's six-step generation-skip surcharge (§4.3): guards for a
missing skip heir and a non-positive taxable base, the skip amount with its
per-heir fallback (an integer division, 0 when there are no heirs), the
minority flag, the 40%/30% rate choice, and the floored product. -/
def generation_skip_surcharge_spec (base_tax : ℤ) (info : InheritanceInfo)
    (taxable_inheritance : ℤ) (grandchild_amount : ℤ)
    (grandchild_is_minor : Bool) : ℤ :=
  if !info.heir.has_generation_skip && grandchild_amount = 0 then 0
  else if taxable_inheritance ≤ 0 then 0
  else
    let skip_amount :=
      if grandchild_amount ≠ 0 then grandchild_amount
      else if info.heir.children.any (fun c => c.is_grandchild && c.parent_alive) then
        taxable_inheritance / (info.heir.total_heirs : ℤ)
      else 0
    if skip_amount = 0 then 0
    else
      let minor := grandchild_is_minor ||
        info.heir.children.any (fun c => c.is_grandchild && c.is_minor)
      let rate : ℚ :=
        if minor && decide (2000000000 < skip_amount) then 40 / 100 else 30 / 100
      ⌊(base_tax : ℚ) * ((skip_amount : ℚ) / (taxable_inheritance : ℚ)) * rate⌋

/-! ### Concrete estates used by witnesses and counterexamples -/

/-- The all-default estate: no assets, no heirs, no debts. Its net
inheritance is 0 because the funeral floor alone exceeds the empty estate. -/
def plain_estate : InheritanceInfo := {}

/-- An estate holding only a spouse: every amount is 0, so the funeral-cost
floor drives the net inheritance to 0. -/
def floorless_estate : InheritanceInfo :=
  { heir := { spouse := { exists' := true } } }

/-- A spouse-and-two-children estate with net inheritance exactly
1,000,000,000. -/
def wide_estate : InheritanceInfo :=
  { asset := { other := 1005000000 }
    heir := { spouse := { exists' := true }
              children := [{ age := 35 }, { age := 30 }] } }

/-- A childless, spouseless estate with net inheritance 995,000,000. -/
def nospouse_estate : InheritanceInfo :=
  { asset := { other := 1000000000 } }

/-- An estate whose only heir is a minor grandchild with a living parent. -/
def skip_estate : InheritanceInfo :=
  { asset := { other := 1005000000 }
    heir := { children := [{ age := 10, is_grandchild := true,
                             parent_alive := true }] } }

/-- An estate holding only a given amount of bank financial assets. -/
def fin_estate (f : ℤ) : InheritanceInfo :=
  { asset := { financial := f } }

/-! ### Arithmetic bridging lemmas -/

/-- Floor of an integer over a positive integer denominator is Euclidean
division. -/
theorem floor_intCast_div_pos (a b : ℤ) (hb : 0 < b) :
    ⌊(a : ℚ) / (b : ℚ)⌋ = a / b := by
  have hb' : ((b.toNat : ℕ) : ℤ) = b := Int.toNat_of_nonneg hb.le
  have hcast : ((b.toNat : ℕ) : ℚ) = (b : ℚ) := by
    exact_mod_cast congrArg (fun z : ℤ => (z : ℚ)) hb'
  calc ⌊(a : ℚ) / (b : ℚ)⌋
      = ⌊(a : ℚ) / ((b.toNat : ℕ) : ℚ)⌋ := by rw [hcast]
    _ = a / ((b.toNat : ℕ) : ℤ) := Rat.floor_intCast_div_natCast a b.toNat
    _ = a / b := by rw [hb']

/-- `⌊t * (k/10)⌋ = (t * k) / 10` over the rationals. -/
theorem floor_mul_div_ten (t k : ℤ) :
    ⌊(t : ℚ) * ((k : ℚ) / 10)⌋ = t * k / 10 := by
  have h : (t : ℚ) * ((k : ℚ) / 10) = ((t * k : ℤ) : ℚ) / ((10 : ℤ) : ℚ) := by
    push_cast
    ring
  rw [h, floor_intCast_div_pos (t * k) 10 (by norm_num)]

/-! ### Closed form of the bracket evaluator -/

/-- Unrolling the bracket loop: `calculate_tax_amount` as five nested guards
over Euclidean divisions (each truncation is applied to a non-negative
quantity inside its bracket). -/
theorem calculate_tax_amount_eq (t : ℤ) : calculate_tax_amount t =
    if t ≤ 0 then 0
    else if t ≤ 100000000 then t / 10
    else if t ≤ 500000000 then (t * 2 - 100000000) / 10
    else if t ≤ 1000000000 then (t * 3 - 600000000) / 10
    else if t ≤ 3000000000 then (t * 4 - 1600000000) / 10
    else (t * 5 - 4600000000) / 10 := by
  by_cases h0 : t ≤ 0
  · simp [calculate_tax_amount, h0]
  · simp only [calculate_tax_amount, if_neg h0, TAX_BRACKETS, tax_bracket_loop,
      bracket_matches, bracket_value, decide_eq_true_eq]
    split_ifs with h1 h2 h3 h4
    · rw [Int.tdiv_eq_ediv (by omega) (by omega)]
      omega
    · rw [Int.tdiv_eq_ediv (by omega) (by omega)]
      omega
    · rw [Int.tdiv_eq_ediv (by omega) (by omega)]
      omega
    · rw [Int.tdiv_eq_ediv (by omega) (by omega)]
      omega
    · rw [Int.tdiv_eq_ediv (by omega) (by omega)]
      omega

/-- The bracket evaluator never returns a negative amount. -/
theorem calculate_tax_amount_nonneg (t : ℤ) : 0 ≤ calculate_tax_amount t := by
  rw [calculate_tax_amount_eq]
  split_ifs <;> omega

/-- C2: `calculate_tax_amount` agrees everywhere with the spec's reference
bracket definition (zero on non-positive bases, otherwise the first matching
row's `floor(base × rate) − cumulativeSubtraction`), and it returns the five
stated boundary values. -/
theorem C2_bracket_evaluator :
    (∀ t : ℤ, calculate_tax_amount t = taxOnBase_spec t) ∧
    calculate_tax_amount 100000000 = 10000000 ∧
    calculate_tax_amount 500000000 = 90000000 ∧
    calculate_tax_amount 1000000000 = 240000000 ∧
    calculate_tax_amount 3000000000 = 1040000000 ∧
    calculate_tax_amount 5000000000 = 2040000000 := by
  refine ⟨fun t => ?_, by decide, by decide, by decide, by decide, by decide⟩
  rw [calculate_tax_amount_eq]
  unfold taxOnBase_spec
  split_ifs
  · rfl
  · rw [show ((1 : ℚ) / 10) = (((1 : ℤ) : ℚ) / 10) by norm_num, floor_mul_div_ten]
    omega
  · rw [show ((2 : ℚ) / 10) = (((2 : ℤ) : ℚ) / 10) by norm_num, floor_mul_div_ten]
    omega
  · rw [show ((3 : ℚ) / 10) = (((3 : ℤ) : ℚ) / 10) by norm_num, floor_mul_div_ten]
    omega
  · rw [show ((4 : ℚ) / 10) = (((4 : ℤ) : ℚ) / 10) by norm_num, floor_mul_div_ten]
    omega
  · rw [show ((5 : ℚ) / 10) = (((5 : ℤ) : ℚ) / 10) by norm_num, floor_mul_div_ten]
    omega

/-- C10: `calculate_tax_amount` is monotone non-decreasing — the cumulative
subtractions make the bracket formula continuous at every boundary. -/
theorem C10_bracket_monotone (a b : ℤ) (h : a ≤ b) :
    calculate_tax_amount a ≤ calculate_tax_amount b := by
  rw [calculate_tax_amount_eq, calculate_tax_amount_eq]
  split_ifs <;> omega

/-- Witness for C10 at a concrete pair of bases. -/
theorem C10_witness :
    calculate_tax_amount 499999999 ≤ calculate_tax_amount 500000001 :=
  C10_bracket_monotone 499999999 500000001 (by decide)

/-- C7: the debt/cost deduction is public charges plus the clamped funeral
cost plus the capped memorial cost plus the capped debt; with a zero reported
funeral expense the clamp contributes exactly the 5,000,000 floor. -/
theorem C7_debt_deduction (info : InheritanceInfo) :
    info.total_debt_deduction =
      info.deductions.public_charges +
        spec_clamp info.deductions.funeral_expense 5000000 10000000 +
        min info.deductions.funeral_memorial 5000000 +
        min info.deductions.debt info.asset.total ∧
    (info.deductions.funeral_expense = 0 →
      info.total_debt_deduction =
        info.deductions.public_charges + 5000000 +
          min info.deductions.funeral_memorial 5000000 +
          min info.deductions.debt info.asset.total) := by
  constructor
  · rfl
  · intro h
    simp only [InheritanceInfo.total_debt_deduction, h]
    omega

/-- Witness for C7 on the all-default estate (funeral expense 0). -/
theorem C7_witness :
    plain_estate.total_debt_deduction =
      plain_estate.deductions.public_charges + 5000000 +
        min plain_estate.deductions.funeral_memorial 5000000 +
        min plain_estate.deductions.debt plain_estate.asset.total :=
  (C7_debt_deduction plain_estate).2 (by decide)

/-- C8: the financial-asset deduction passes small amounts through, is fixed
at 20,000,000 in the middle band, is 20% capped at 200,000,000 above it, and
takes the five stated breakpoint values. -/
theorem C8_financial_deduction :
    (∀ info : InheritanceInfo,
      (info.asset.net_financial < 20000000 →
        calculate_financial_deduction info = info.asset.net_financial) ∧
      (20000000 ≤ info.asset.net_financial → info.asset.net_financial ≤ 100000000 →
        calculate_financial_deduction info = 20000000) ∧
      (100000000 < info.asset.net_financial →
        calculate_financial_deduction info =
          min ⌊(info.asset.net_financial : ℚ) * (20 / 100)⌋ 200000000)) ∧
    calculate_financial_deduction (fin_estate 19999999) = 19999999 ∧
    calculate_financial_deduction (fin_estate 20000000) = 20000000 ∧
    calculate_financial_deduction (fin_estate 100000000) = 20000000 ∧
    calculate_financial_deduction (fin_estate 150000000) = 30000000 ∧
    calculate_financial_deduction (fin_estate 2000000000) = 200000000 := by
  refine ⟨fun info => ⟨?_, ?_, ?_⟩, by decide, by decide, by decide, by decide,
    by decide⟩
  · intro h
    simp [calculate_financial_deduction, FINANCIAL_FULL_THRESHOLD, h]
  · intro h1 h2
    simp only [calculate_financial_deduction, FINANCIAL_FULL_THRESHOLD,
      FINANCIAL_FIXED_THRESHOLD, FINANCIAL_FIXED_DEDUCTION]
    rw [if_neg (by omega), if_pos h2]
  · intro h
    simp only [calculate_financial_deduction, FINANCIAL_FULL_THRESHOLD,
      FINANCIAL_FIXED_THRESHOLD, FINANCIAL_FIXED_DEDUCTION,
      FINANCIAL_MAX_DEDUCTION]
    rw [if_neg (by omega), if_neg (by omega),
      show ((20 : ℚ) / 100) = (((2 : ℤ) : ℚ) / 10) by norm_num,
      floor_mul_div_ten, Int.tdiv_eq_ediv (by omega) (by omega)]

/-- Witness for C8 in each of the three quantified bands. -/
theorem C8_witness :
    calculate_financial_deduction (fin_estate 15000000) = 15000000 ∧
    calculate_financial_deduction (fin_estate 50000000) = 20000000 ∧
    calculate_financial_deduction (fin_estate 150000000) =
      min ⌊((fin_estate 150000000).asset.net_financial : ℚ) * (20 / 100)⌋
        200000000 :=
  ⟨(C8_financial_deduction.1 (fin_estate 15000000)).1 (by decide),
   (C8_financial_deduction.1 (fin_estate 50000000)).2.1 (by decide) (by decide),
   (C8_financial_deduction.1 (fin_estate 150000000)).2.2 (by decide)⟩

/-- C1 as stated is false: for an estate with a spouse whose net inheritance
is 0, the allocation 0 lies in [0, 499,999,999] yet the spousal deduction is
0, not 500,000,000 (the engine caps every branch at the taxable value). -/
theorem C1_counterexample :
    floorless_estate.heir.has_spouse = true ∧
    (0 : ℤ) ≤ 0 ∧ (0 : ℤ) ≤ 499999999 ∧
    calculate_spouse_deduction floorless_estate 0 ≠ 500000000 := by
  decide

/-- C1 amended: with a spouse and a net inheritance of at least 500,000,000,
every allocation in [0, 499,999,999] yields exactly the 500,000,000 floor
(and a positive such allocation records that amount in the deduction
mapping); for allocations at or above 500,000,000 the spousal deduction never
exceeds min(3,000,000,000, net inheritance). -/
theorem C1_spouse_floor_ceiling (info : InheritanceInfo) (alloc : ℤ)
    (hs : info.heir.has_spouse = true) :
    ((500000000 ≤ info.net_inheritance ∧ 0 ≤ alloc ∧ alloc ≤ 499999999) →
      calculate_spouse_deduction info alloc = 500000000) ∧
    ((500000000 ≤ info.net_inheritance ∧ 0 < alloc ∧ alloc ≤ 499999999) →
      ("배우자공제", (500000000 : ℤ)) ∈
        calculate_deductions info DeductionType.LUMP_SUM alloc) ∧
    (500000000 ≤ alloc →
      calculate_spouse_deduction info alloc ≤
        min 3000000000 info.net_inheritance) := by
  have hfloor : ∀ h : 500000000 ≤ info.net_inheritance, ∀ h0 : alloc ≤ 499999999,
      calculate_spouse_deduction info alloc = 500000000 := by
    intro h h0
    simp only [calculate_spouse_deduction, hs, Bool.not_true, Bool.false_eq_true,
      if_false, SPOUSE_MIN_DEDUCTION]
    rw [if_neg (by omega), if_pos (by omega)]
    omega
  refine ⟨fun ⟨h, _, h0⟩ => hfloor h h0, fun ⟨h, h1, h0⟩ => ?_, fun h => ?_⟩
  · simp only [calculate_deductions, hs, true_and, decide_eq_true_eq]
    rw [hfloor h h0]
    simp [h1]
  · simp only [calculate_spouse_deduction, hs, Bool.not_true, Bool.false_eq_true,
      if_false, SPOUSE_MIN_DEDUCTION, SPOUSE_MAX_DEDUCTION]
    split_ifs with h1 h2
    · simp only [InheritanceInfo.net_inheritance] at h1 ⊢
      omega
    · omega
    · omega

/-- Witness for C1 on an estate with net inheritance 1,000,000,000. -/
theorem C1_witness :
    calculate_spouse_deduction wide_estate 100000000 = 500000000 ∧
    ("배우자공제", (500000000 : ℤ)) ∈
      calculate_deductions wide_estate DeductionType.LUMP_SUM 100000000 ∧
    calculate_spouse_deduction wide_estate 600000000 ≤
      min 3000000000 wide_estate.net_inheritance :=
  ⟨(C1_spouse_floor_ceiling wide_estate 100000000 (by decide)).1 (by decide),
   (C1_spouse_floor_ceiling wide_estate 100000000 (by decide)).2.1 (by decide),
   (C1_spouse_floor_ceiling wide_estate 600000000 (by decide)).2.2 (by decide)⟩

/-- Truncated `base × skip × (rn/10) / ti` equals the floored rational
product when everything in sight is non-negative. -/
theorem tdiv_ratio_floor (base s ti rn : ℤ) (hb : 0 ≤ base) (hs : 0 < s)
    (ht : 0 < ti) (hr : 0 ≤ rn) :
    Int.tdiv (base * s * rn) (ti * 10) =
      ⌊(base : ℚ) * ((s : ℚ) / (ti : ℚ)) * ((rn : ℚ) / 10)⌋ := by
  have h1 : (0 : ℤ) ≤ base * s * rn := mul_nonneg (mul_nonneg hb hs.le) hr
  have h2 : (0 : ℤ) < ti * 10 := by positivity
  have hti : (ti : ℚ) ≠ 0 := by exact_mod_cast ht.ne'
  have h3 : (base : ℚ) * ((s : ℚ) / (ti : ℚ)) * ((rn : ℚ) / 10) =
      ((base * s * rn : ℤ) : ℚ) / ((ti * 10 : ℤ) : ℚ) := by
    push_cast
    field_simp
  rw [Int.tdiv_eq_ediv h1 h2.le, h3, floor_intCast_div_pos _ _ h2]

/-- The generation-skip surcharge is never negative (for a non-negative base
tax and grandchild amount). -/
theorem surcharge_nonneg (base : ℤ) (info : InheritanceInfo) (ti g : ℤ)
    (gm : Bool) (hb : 0 ≤ base) (hg : 0 ≤ g) :
    0 ≤ calculate_generation_skip_surcharge base info ti g gm := by
  simp only [calculate_generation_skip_surcharge, generation_skip_fallback_amount]
  split_ifs <;>
    first
      | omega
      | exact Int.tdiv_nonneg
          (mul_nonneg (mul_nonneg hb hg) (by omega)) (by omega)
      | exact Int.tdiv_nonneg
          (mul_nonneg (mul_nonneg hb
            (Int.fdiv_nonneg (by omega) (by positivity))) (by omega)) (by omega)

/-- C3: the surcharge implementation follows the spec's six-step algorithm
exactly, for any non-negative base tax and grandchild amount. -/
theorem C3_surcharge_follows_spec (base_tax : ℤ) (info : InheritanceInfo)
    (ti g : ℤ) (gm : Bool) (hb : 0 ≤ base_tax) (hg : 0 ≤ g) :
    calculate_generation_skip_surcharge base_tax info ti g gm =
      generation_skip_surcharge_spec base_tax info ti g gm := by
  simp only [calculate_generation_skip_surcharge, generation_skip_surcharge_spec,
    generation_skip_fallback_amount]
  by_cases h1 : (!info.heir.has_generation_skip && decide (g = 0)) = true
  · rw [if_pos h1, if_pos h1]
  · rw [if_neg h1, if_neg h1]
    by_cases h2 : ti ≤ 0
    · rw [if_pos h2, if_pos h2]
    · rw [if_neg h2, if_neg h2]
      have hskip : (if g = 0 then
            (if (info.heir.children.any (fun c => c.is_grandchild && c.parent_alive) &&
                decide (0 < info.heir.total_heirs)) = true then
              Int.fdiv ti (info.heir.total_heirs : ℤ)
            else 0)
          else g) =
          (if g ≠ 0 then g
          else if info.heir.children.any (fun c => c.is_grandchild && c.parent_alive) then
            ti / (info.heir.total_heirs : ℤ)
          else 0) := by
        by_cases hg0 : g = 0
        · simp only [hg0, if_pos rfl, ne_eq, not_true_eq_false, if_false]
          by_cases hany : info.heir.children.any
              (fun c => c.is_grandchild && c.parent_alive) = true
          · by_cases hth : 0 < info.heir.total_heirs
            · have hc1 : (info.heir.children.any
                  (fun c => c.is_grandchild && c.parent_alive) &&
                  decide (0 < info.heir.total_heirs)) = true := by
                rw [hany, Bool.true_and, decide_eq_true_eq]
                exact hth
              rw [if_pos hc1, if_pos hany]
              exact Int.fdiv_eq_ediv ti (by positivity)
            · have hth0 : info.heir.total_heirs = 0 := by omega
              simp [hany, hth0]
          · simp [hany]
        · simp [hg0]
      rw [hskip]
      set s := (if g ≠ 0 then g
        else if info.heir.children.any (fun c => c.is_grandchild && c.parent_alive) then
          ti / (info.heir.total_heirs : ℤ)
        else 0) with hs_def
      by_cases hs0 : s = 0
      · rw [if_pos hs0, if_pos hs0]
      · rw [if_neg hs0, if_neg hs0]
        have hs_pos : 0 < s := by
          rcases lt_or_le 0 s with h | h
          · exact h
          · exfalso
            apply hs0
            have hnn : 0 ≤ s := by
              rw [hs_def]
              split_ifs with ha hb'
              · omega
              · exact Int.ediv_nonneg (by omega) (by positivity)
              · omega
            omega
        by_cases hm : ((gm || info.heir.children.any
            (fun c => c.is_grandchild && c.is_minor)) &&
            decide (GENERATION_SKIP_MINOR_THRESHOLD < s)) = true
        · rw [if_pos hm]
          have hm' : ((gm || info.heir.children.any
              (fun c => c.is_grandchild && c.is_minor)) &&
              decide ((2000000000 : ℤ) < s)) = true := by
            simpa [GENERATION_SKIP_MINOR_THRESHOLD] using hm
          rw [if_pos hm',
            show ((40 : ℚ) / 100) = (((4 : ℤ) : ℚ) / 10) by norm_num]
          exact tdiv_ratio_floor base_tax s ti 4 hb hs_pos (by omega) (by omega)
        · rw [if_neg hm]
          have hm' : ¬ ((gm || info.heir.children.any
              (fun c => c.is_grandchild && c.is_minor)) &&
              decide ((2000000000 : ℤ) < s)) = true := by
            simpa [GENERATION_SKIP_MINOR_THRESHOLD] using hm
          rw [if_neg hm',
            show ((30 : ℚ) / 100) = (((3 : ℤ) : ℚ) / 10) by norm_num]
          exact tdiv_ratio_floor base_tax s ti 3 hb hs_pos (by omega) (by omega)

/-- Witness for C3 on an estate whose only heir is a minor grandchild. -/
theorem C3_witness :
    calculate_generation_skip_surcharge 240000000 skip_estate 1000000000
        300000000 false =
      generation_skip_surcharge_spec 240000000 skip_estate 1000000000
        300000000 false :=
  C3_surcharge_follows_spec 240000000 skip_estate 1000000000 300000000 false
    (by decide) (by decide)

/-- Truncated 3% equals the floored rational 3% on non-negative amounts. -/
theorem tdiv_three_percent (x : ℤ) (hx : 0 ≤ x) :
    Int.tdiv (x * 3) 100 = ⌊(x : ℚ) * (3 / 100)⌋ := by
  rw [Int.tdiv_eq_ediv (by omega) (by norm_num),
    show (x : ℚ) * (3 / 100) = ((x * 3 : ℤ) : ℚ) / ((100 : ℤ) : ℚ) by
      push_cast; ring,
    floor_intCast_div_pos _ _ (by norm_num)]

/-- C4: the final tax is the credits-adjusted surcharged tax clamped at 0,
the filing credit is the floored 3% of (calculated tax + surcharge) exactly
when filing on time, and the prior-gift credit is the recorded total gift tax
with no ceiling. -/
theorem C4_final_tax (info : InheritanceInfo) (detail : List (String × ℤ))
    (ratio : ℚ) (g : ℤ) (gm : Bool) (hg : 0 ≤ g) :
    (calculate_inheritance_tax info detail ratio g gm).final_tax =
      max 0 ((calculate_inheritance_tax info detail ratio g gm).calculated_tax +
        (calculate_inheritance_tax info detail ratio g gm).generation_surcharge -
        (calculate_inheritance_tax info detail ratio g gm).filing_credit -
        (calculate_inheritance_tax info detail ratio g gm).prior_gift_tax_credit) ∧
    (calculate_inheritance_tax info detail ratio g gm).filing_credit =
      (if info.file_on_time then
        ⌊(((calculate_inheritance_tax info detail ratio g gm).calculated_tax +
          (calculate_inheritance_tax info detail ratio g gm).generation_surcharge :
            ℤ) : ℚ) * (3 / 100)⌋
      else 0) ∧
    (calculate_inheritance_tax info detail ratio g gm).prior_gift_tax_credit =
      info.prior_gift.total_tax_paid := by
  simp only [calculate_inheritance_tax]
  set ta := if info.net_inheritance - (detail.map Prod.snd).sum < 0 then 0
    else info.net_inheritance - (detail.map Prod.snd).sum with hta
  set ct := calculate_tax_amount ta with hct
  set gs := calculate_generation_skip_surcharge ct info info.net_inheritance g gm
    with hgs
  have hct0 : 0 ≤ ct := calculate_tax_amount_nonneg ta
  have hgs0 : 0 ≤ gs := surcharge_nonneg ct info info.net_inheritance g gm hct0 hg
  refine ⟨?_, ?_, by trivial⟩
  · simp only [calculate_filing_credit]
    split_ifs <;> omega
  · simp only [calculate_filing_credit]
    split_ifs with hf
    · exact tdiv_three_percent (ct + gs) (by omega)
    · rfl

/-- Witness for C4 on a concrete estate with a lump-sum deduction detail. -/
theorem C4_witness :
    (calculate_inheritance_tax wide_estate [("일괄공제", 500000000)] 0 0
        false).final_tax =
      max 0 ((calculate_inheritance_tax wide_estate [("일괄공제", 500000000)] 0 0
          false).calculated_tax +
        (calculate_inheritance_tax wide_estate [("일괄공제", 500000000)] 0 0
          false).generation_surcharge -
        (calculate_inheritance_tax wide_estate [("일괄공제", 500000000)] 0 0
          false).filing_credit -
        (calculate_inheritance_tax wide_estate [("일괄공제", 500000000)] 0 0
          false).prior_gift_tax_credit) :=
  (C4_final_tax wide_estate [("일괄공제", 500000000)] 0 0 false (by decide)).1

/-! ### Folding lemmas for Python's `min(..., key=...)`, `max`, `min` -/

/-- The min-by fold returns an element of the traversed list. -/
theorem foldl_minBy_mem {α : Type} (f : α → ℤ) (x : α) (xs : List α) :
    xs.foldl (fun b y => if f y < f b then y else b) x ∈ x :: xs := by
  induction xs generalizing x with
  | nil => simp
  | cons y ys ih =>
    rw [List.foldl_cons]
    by_cases hxy : f y < f x
    · rw [if_pos hxy]
      rcases List.mem_cons.mp (ih y) with h1 | h1
      · rw [h1]
        exact List.mem_cons.mpr (Or.inr (List.mem_cons.mpr (Or.inl rfl)))
      · exact List.mem_cons.mpr (Or.inr (List.mem_cons.mpr (Or.inr h1)))
    · rw [if_neg hxy]
      rcases List.mem_cons.mp (ih x) with h1 | h1
      · rw [h1]
        exact List.mem_cons.mpr (Or.inl rfl)
      · exact List.mem_cons.mpr (Or.inr (List.mem_cons.mpr (Or.inr h1)))

/-- The min-by fold is a lower bound on the key over the traversed list. -/
theorem foldl_minBy_le {α : Type} (f : α → ℤ) (x : α) (xs : List α) :
    ∀ z ∈ x :: xs,
      f (xs.foldl (fun b y => if f y < f b then y else b) x) ≤ f z := by
  induction xs generalizing x with
  | nil =>
    intro z hz
    rw [List.mem_singleton] at hz
    subst hz
    exact le_refl _
  | cons y ys ih =>
    intro z hz
    rw [List.foldl_cons]
    have hstart_le_x : f (if f y < f x then y else x) ≤ f x := by
      split_ifs with h
      · exact le_of_lt h
      · exact le_refl _
    have hstart_le_y : f (if f y < f x then y else x) ≤ f y := by
      split_ifs with h
      · exact le_refl _
      · exact le_of_not_lt h
    have hbase := ih (if f y < f x then y else x) (if f y < f x then y else x)
      (List.mem_cons_self _ _)
    rcases List.mem_cons.mp hz with rfl | hz'
    · exact le_trans hbase hstart_le_x
    · rcases List.mem_cons.mp hz' with rfl | hz''
      · exact le_trans hbase hstart_le_y
      · exact ih (if f y < f x then y else x) z (List.mem_cons.mpr (Or.inr hz''))

/-- The min-by fold returns the first list element achieving the minimal
key: Python's tie-break for `min(..., key=...)`. -/
theorem foldl_minBy_find? {α : Type} (f : α → ℤ) (x : α) (xs : List α) :
    (x :: xs).find? (fun z =>
        decide (f z = f (xs.foldl (fun b y => if f y < f b then y else b) x))) =
      some (xs.foldl (fun b y => if f y < f b then y else b) x) := by
  induction xs generalizing x with
  | nil =>
    rw [List.foldl_nil, List.find?_cons_of_pos _ (by simp)]
  | cons y ys ih =>
    rw [List.foldl_cons]
    by_cases hxy : f y < f x
    · rw [if_pos hxy]
      have hler := foldl_minBy_le f y ys y (List.mem_cons_self _ _)
      have hx_ne : ¬ f x =
          f (ys.foldl (fun b y => if f y < f b then y else b) y) := by
        intro hc
        linarith
      rw [List.find?_cons_of_neg _ (by simpa using hx_ne)]
      exact ih y
    · rw [if_neg hxy]
      have hler := foldl_minBy_le f x ys x (List.mem_cons_self _ _)
      by_cases hx : f x = f (ys.foldl (fun b y => if f y < f b then y else b) x)
      · have hihx := ih x
        rw [List.find?_cons_of_pos _ (by simpa using hx)] at hihx
        rw [List.find?_cons_of_pos _ (by simpa using hx)]
        exact hihx
      · have hy_ne : ¬ f y =
            f (ys.foldl (fun b y => if f y < f b then y else b) x) := by
          intro hc
          have h2 : f x ≤ f y := le_of_not_lt hxy
          exact hx (by linarith)
        have hihy := ih x
        rw [List.find?_cons_of_neg _ (by simpa using hx)] at hihy
        rw [List.find?_cons_of_neg _ (by simpa using hx),
          List.find?_cons_of_neg _ (by simpa using hy_ne)]
        exact hihy

/-- Folding `max` bounds every traversed element from above. -/
theorem foldl_max_ge (a : ℤ) (l : List ℤ) : ∀ z ∈ a :: l, z ≤ l.foldl max a := by
  induction l generalizing a with
  | nil =>
    intro z hz
    rw [List.mem_singleton] at hz
    subst hz
    exact le_refl _
  | cons b bs ih =>
    intro z hz
    rw [List.foldl_cons]
    have hbase := ih (max a b) (max a b) (List.mem_cons_self _ _)
    rcases List.mem_cons.mp hz with rfl | hz'
    · exact le_trans (le_max_left z b) hbase
    · rcases List.mem_cons.mp hz' with rfl | hz''
      · exact le_trans (le_max_right a z) hbase
      · exact ih (max a b) z (List.mem_cons.mpr (Or.inr hz''))

/-- Folding `max` returns a traversed element. -/
theorem foldl_max_mem (a : ℤ) (l : List ℤ) : l.foldl max a ∈ a :: l := by
  induction l generalizing a with
  | nil => simp
  | cons b bs ih =>
    rw [List.foldl_cons]
    rcases List.mem_cons.mp (ih (max a b)) with h1 | h1
    · rw [h1]
      rcases max_choice a b with hm | hm
      · rw [hm]
        exact List.mem_cons.mpr (Or.inl rfl)
      · rw [hm]
        exact List.mem_cons.mpr (Or.inr (List.mem_cons.mpr (Or.inl rfl)))
    · exact List.mem_cons.mpr (Or.inr (List.mem_cons.mpr (Or.inr h1)))

/-- Folding `min` bounds every traversed element from below. -/
theorem foldl_min_le (a : ℤ) (l : List ℤ) : ∀ z ∈ a :: l, l.foldl min a ≤ z := by
  induction l generalizing a with
  | nil =>
    intro z hz
    rw [List.mem_singleton] at hz
    subst hz
    exact le_refl _
  | cons b bs ih =>
    intro z hz
    rw [List.foldl_cons]
    have hbase := ih (min a b) (min a b) (List.mem_cons_self _ _)
    rcases List.mem_cons.mp hz with rfl | hz'
    · exact le_trans hbase (min_le_left z b)
    · rcases List.mem_cons.mp hz' with rfl | hz''
      · exact le_trans hbase (min_le_right a z)
      · exact ih (min a b) z (List.mem_cons.mpr (Or.inr hz''))

/-- Folding `min` returns a traversed element. -/
theorem foldl_min_mem (a : ℤ) (l : List ℤ) : l.foldl min a ∈ a :: l := by
  induction l generalizing a with
  | nil => simp
  | cons b bs ih =>
    rw [List.foldl_cons]
    rcases List.mem_cons.mp (ih (min a b)) with h1 | h1
    · rw [h1]
      rcases min_choice a b with hm | hm
      · rw [hm]
        exact List.mem_cons.mpr (Or.inl rfl)
      · rw [hm]
        exact List.mem_cons.mpr (Or.inr (List.mem_cons.mpr (Or.inl rfl)))
    · exact List.mem_cons.mpr (Or.inr (List.mem_cons.mpr (Or.inr h1)))

/-- `generate_cases` never returns an empty scenario list. -/
theorem generate_cases_ne_nil (info : InheritanceInfo) :
    generate_cases info ≠ [] := by
  unfold generate_cases
  split_ifs with h
  · simp [dedupe_cases, relabel_all]
  · simp

/-- C5: `compare_cases` always returns a result whose optimal case attains
the minimum final tax over the generated scenarios (ties broken in favor of
the first-generated one, witnessed through `find?`), and whose
`max_savings` is the non-negative spread between the worst and the best
scenario, vanishing when all scenarios agree. -/
theorem C5_optimizer (info : InheritanceInfo) (g : ℤ) (gm : Bool) :
    ∃ res : ComparisonResult,
      compare_cases info g gm = some res ∧
      res.optimal_case ∈ res.cases ∧
      (∀ c ∈ res.cases, res.optimal_case.final_tax ≤ c.final_tax) ∧
      res.cases.find?
          (fun c => decide (c.final_tax = res.optimal_case.final_tax)) =
        some res.optimal_case ∧
      (∃ w ∈ res.cases, (∀ c ∈ res.cases, c.final_tax ≤ w.final_tax) ∧
        res.max_savings = w.final_tax - res.optimal_case.final_tax) ∧
      0 ≤ res.max_savings ∧
      ((∀ c ∈ res.cases, c.final_tax = res.optimal_case.final_tax) →
        res.max_savings = 0) := by
  obtain ⟨r, rs, hr⟩ : ∃ r rs,
      (generate_cases info).map (run_case info g gm) = r :: rs := by
    cases h : (generate_cases info).map (run_case info g gm) with
    | nil => exact absurd (List.map_eq_nil_iff.mp h) (generate_cases_ne_nil info)
    | cons a l => exact ⟨a, l, rfl⟩
  set opt := rs.foldl (fun b y => if y.final_tax < b.final_tax then y else b) r
    with hopt
  set max_tax := (rs.map CaseResult.final_tax).foldl max r.final_tax with hmax
  set min_tax := (rs.map CaseResult.final_tax).foldl min r.final_tax with hmin
  have hopt_mem : opt ∈ r :: rs := foldl_minBy_mem CaseResult.final_tax r rs
  have hopt_le : ∀ c ∈ r :: rs, opt.final_tax ≤ c.final_tax :=
    foldl_minBy_le CaseResult.final_tax r rs
  have hmem_map : ∀ c ∈ r :: rs,
      c.final_tax ∈ r.final_tax :: rs.map CaseResult.final_tax := by
    intro c hc
    rcases List.mem_cons.mp hc with rfl | hc'
    · exact List.mem_cons.mpr (Or.inl rfl)
    · exact List.mem_cons.mpr (Or.inr (List.mem_map_of_mem _ hc'))
  have hmax_ge : ∀ c ∈ r :: rs, c.final_tax ≤ max_tax := by
    intro c hc
    exact foldl_max_ge r.final_tax (rs.map CaseResult.final_tax) _ (hmem_map c hc)
  have hmin_le : ∀ c ∈ r :: rs, min_tax ≤ c.final_tax := by
    intro c hc
    exact foldl_min_le r.final_tax (rs.map CaseResult.final_tax) _ (hmem_map c hc)
  have hmax_w : ∃ w ∈ r :: rs, w.final_tax = max_tax := by
    rcases List.mem_cons.mp (foldl_max_mem r.final_tax
        (rs.map CaseResult.final_tax)) with h1 | h1
    · exact ⟨r, List.mem_cons.mpr (Or.inl rfl), h1.symm⟩
    · rcases List.mem_map.mp h1 with ⟨w, hw, hfw⟩
      exact ⟨w, List.mem_cons.mpr (Or.inr hw), hfw⟩
  have hmin_w : ∃ w ∈ r :: rs, w.final_tax = min_tax := by
    rcases List.mem_cons.mp (foldl_min_mem r.final_tax
        (rs.map CaseResult.final_tax)) with h1 | h1
    · exact ⟨r, List.mem_cons.mpr (Or.inl rfl), h1.symm⟩
    · rcases List.mem_map.mp h1 with ⟨w, hw, hfw⟩
      exact ⟨w, List.mem_cons.mpr (Or.inr hw), hfw⟩
  have hmin_opt : min_tax = opt.final_tax := by
    rcases hmin_w with ⟨w, hw, hfw⟩
    have h1 : opt.final_tax ≤ min_tax := hfw ▸ hopt_le w hw
    have h2 : min_tax ≤ opt.final_tax := hmin_le opt hopt_mem
    omega
  refine ⟨{ cases := r :: rs, optimal_case := opt,
            max_savings := max_tax - min_tax }, ?_, hopt_mem, hopt_le,
    foldl_minBy_find? CaseResult.final_tax r rs, ?_, ?_, ?_⟩
  · simp only [compare_cases, hr]
  · rcases hmax_w with ⟨w, hw, hfw⟩
    refine ⟨w, hw, fun c hc => hfw ▸ hmax_ge c hc, ?_⟩
    simp only [hmin_opt, hfw]
  · have h1 := hmin_le r (List.mem_cons.mpr (Or.inl rfl))
    have h2 := hmax_ge r (List.mem_cons.mpr (Or.inl rfl))
    simp only
    omega
  · intro hall
    rcases hmax_w with ⟨w, hw, hfw⟩
    have h1 : w.final_tax = opt.final_tax := hall w hw
    simp only
    omega

/-- Witness for C5 on a concrete spousal estate. -/
theorem C5_witness :
    ∃ res : ComparisonResult,
      compare_cases wide_estate 0 false = some res ∧ 0 ≤ res.max_savings := by
  obtain ⟨res, h1, _, _, _, _, h6, _⟩ := C5_optimizer wide_estate 0 false
  exact ⟨res, h1, h6⟩

/-- C9: with a zero net inheritance (or zero heirs) nothing divides by zero:
every scenario still runs to completion, the spousal allocation fraction
defaults to 0, and both surcharge divisions are short-circuited to a zero
result by their guards. -/
theorem C9_division_guards :
    (∀ (info : InheritanceInfo) (g : ℤ) (gm : Bool),
      info.net_inheritance = 0 →
      ∃ res : ComparisonResult, compare_cases info g gm = some res ∧
        res.cases.length = (generate_cases info).length) ∧
    (∀ (info : InheritanceInfo) (amt : ℤ), info.net_inheritance = 0 →
      spouse_allocation_ratio info amt = 0) ∧
    (∀ (base : ℤ) (info : InheritanceInfo) (ti g : ℤ) (gm : Bool), ti ≤ 0 →
      calculate_generation_skip_surcharge base info ti g gm = 0) ∧
    (∀ (base : ℤ) (info : InheritanceInfo) (ti : ℤ) (gm : Bool),
      info.heir.total_heirs = 0 →
      calculate_generation_skip_surcharge base info ti 0 gm = 0) := by
  refine ⟨?_, ?_, ?_, ?_⟩
  · intro info g gm _
    obtain ⟨r, rs, hr⟩ : ∃ r rs,
        (generate_cases info).map (run_case info g gm) = r :: rs := by
      cases h : (generate_cases info).map (run_case info g gm) with
      | nil => exact absurd (List.map_eq_nil_iff.mp h) (generate_cases_ne_nil info)
      | cons a l => exact ⟨a, l, rfl⟩
    refine ⟨{ cases := r :: rs,
              optimal_case := rs.foldl
                (fun b y => if y.final_tax < b.final_tax then y else b) r,
              max_savings := (rs.map CaseResult.final_tax).foldl max r.final_tax -
                (rs.map CaseResult.final_tax).foldl min r.final_tax },
      by simp only [compare_cases, hr], ?_⟩
    show (r :: rs).length = (generate_cases info).length
    rw [← hr, List.length_map]
  · intro info amt h
    unfold spouse_allocation_ratio
    rw [h]
    norm_num
  · intro base info ti g gm h
    simp only [calculate_generation_skip_surcharge]
    by_cases h1 : (!info.heir.has_generation_skip && decide (g = 0)) = true
    · rw [if_pos h1]
    · rw [if_neg h1, if_pos h]
  · intro base info ti gm h
    have hfb : generation_skip_fallback_amount info ti = 0 := by
      unfold generation_skip_fallback_amount
      rw [h]
      simp
    simp [calculate_generation_skip_surcharge, hfb]

/-- Witness for C9 on the all-default estate (zero net inheritance and zero
heirs). -/
theorem C9_witness :
    (∃ res : ComparisonResult, compare_cases plain_estate 7 true = some res ∧
      res.cases.length = (generate_cases plain_estate).length) ∧
    spouse_allocation_ratio plain_estate 3 = 0 ∧
    calculate_generation_skip_surcharge 100 plain_estate (-5) 5 false = 0 ∧
    calculate_generation_skip_surcharge 100 plain_estate 50 0 false = 0 :=
  ⟨C9_division_guards.1 plain_estate 7 true (by decide),
   C9_division_guards.2.1 plain_estate 3 (by decide),
   C9_division_guards.2.2.1 100 plain_estate (-5) 5 false (by decide),
   C9_division_guards.2.2.2 100 plain_estate 50 false (by decide)⟩

/-- The net inheritance is clamped at 0, hence non-negative. -/
theorem net_inheritance_nonneg (info : InheritanceInfo) :
    0 ≤ info.net_inheritance :=
  le_max_left _ _

/-- Relabeling the legal-share candidate at position 0 keeps its name. -/
theorem relabel_legal_0 (a : ℤ) :
    relabel_case 0 ("A: 법정상속분", "배우자 법정상속분 + 일괄공제 5억", a,
        DeductionType.LUMP_SUM) =
      ("A: 법정상속분", "배우자 법정상속분 + 일괄공제 5억", a,
        DeductionType.LUMP_SUM) := by
  have hname : String.singleton (Char.ofNat 65) ++ ": " ++
      String.mk (drop_case_label "A: 법정상속분".data) = "A: 법정상속분" := by
    decide
  simp [relabel_case, hname]

/-- Relabeling the maximize-spouse candidate at position 1 keeps its name. -/
theorem relabel_max_1 (a : ℤ) :
    relabel_case 1 ("B: 배우자 최대", "배우자 상속 최대화 (30억 한도)", a,
        DeductionType.LUMP_SUM) =
      ("B: 배우자 최대", "배우자 상속 최대화 (30억 한도)", a,
        DeductionType.LUMP_SUM) := by
  have hname : String.singleton (Char.ofNat 66) ++ ": " ++
      String.mk (drop_case_label "B: 배우자 최대".data) = "B: 배우자 최대" := by
    decide
  simp [relabel_case, hname]

/-- Relabeling the minimize-spouse candidate at position 1 renames it to the
letter B while keeping its description. -/
theorem relabel_min_1 (a : ℤ) :
    relabel_case 1 ("C: 배우자 최소", "배우자 상속 최소화 (5억)", a,
        DeductionType.LUMP_SUM) =
      ("B: 배우자 최소", "배우자 상속 최소화 (5억)", a,
        DeductionType.LUMP_SUM) := by
  have hname : String.singleton (Char.ofNat 66) ++ ": " ++
      String.mk (drop_case_label "C: 배우자 최소".data) = "B: 배우자 최소" := by
    decide
  simp [relabel_case, hname]

/-- Relabeling the minimize-spouse candidate at position 2 keeps its name. -/
theorem relabel_min_2 (a : ℤ) :
    relabel_case 2 ("C: 배우자 최소", "배우자 상속 최소화 (5억)", a,
        DeductionType.LUMP_SUM) =
      ("C: 배우자 최소", "배우자 상속 최소화 (5억)", a,
        DeductionType.LUMP_SUM) := by
  have hname : String.singleton (Char.ofNat 67) ++ ": " ++
      String.mk (drop_case_label "C: 배우자 최소".data) = "C: 배우자 최소" := by
    decide
  simp [relabel_case, hname]

/-- C6: without a spouse exactly the two fixed scenarios are generated; with
a spouse the three candidate allocations (legal share, capped maximum,
floored minimum) are generated in order, deduplicated by amount keeping the
first occurrence, and relabeled with sequential letters while keeping each
candidate's description. -/
theorem C6_scenario_generation (info : InheritanceInfo) :
    (info.heir.has_spouse = false →
      generate_cases info =
        [("A: 일괄공제", "일괄공제 5억원 적용", 0, DeductionType.LUMP_SUM),
         ("B: 항목별공제", "기초공제 2억 + 인적공제", 0, DeductionType.ITEMIZED)]) ∧
    (info.heir.has_spouse = true →
      (min info.net_inheritance SPOUSE_MAX_DEDUCTION =
          calculate_spouse_legal_share_amount info →
        min SPOUSE_MIN_DEDUCTION info.net_inheritance =
          calculate_spouse_legal_share_amount info →
        generate_cases info =
          [("A: 법정상속분", "배우자 법정상속분 + 일괄공제 5억",
            calculate_spouse_legal_share_amount info, DeductionType.LUMP_SUM)]) ∧
      (min info.net_inheritance SPOUSE_MAX_DEDUCTION =
          calculate_spouse_legal_share_amount info →
        min SPOUSE_MIN_DEDUCTION info.net_inheritance ≠
          calculate_spouse_legal_share_amount info →
        generate_cases info =
          [("A: 법정상속분", "배우자 법정상속분 + 일괄공제 5억",
            calculate_spouse_legal_share_amount info, DeductionType.LUMP_SUM),
           ("B: 배우자 최소", "배우자 상속 최소화 (5억)",
            min SPOUSE_MIN_DEDUCTION info.net_inheritance,
            DeductionType.LUMP_SUM)]) ∧
      (min info.net_inheritance SPOUSE_MAX_DEDUCTION ≠
          calculate_spouse_legal_share_amount info →
        min SPOUSE_MIN_DEDUCTION info.net_inheritance =
          calculate_spouse_legal_share_amount info →
        generate_cases info =
          [("A: 법정상속분", "배우자 법정상속분 + 일괄공제 5억",
            calculate_spouse_legal_share_amount info, DeductionType.LUMP_SUM),
           ("B: 배우자 최대", "배우자 상속 최대화 (30억 한도)",
            min info.net_inheritance SPOUSE_MAX_DEDUCTION,
            DeductionType.LUMP_SUM)]) ∧
      (min info.net_inheritance SPOUSE_MAX_DEDUCTION ≠
          calculate_spouse_legal_share_amount info →
        min SPOUSE_MIN_DEDUCTION info.net_inheritance ≠
          calculate_spouse_legal_share_amount info →
        min SPOUSE_MIN_DEDUCTION info.net_inheritance =
          min info.net_inheritance SPOUSE_MAX_DEDUCTION →
        generate_cases info =
          [("A: 법정상속분", "배우자 법정상속분 + 일괄공제 5억",
            calculate_spouse_legal_share_amount info, DeductionType.LUMP_SUM),
           ("B: 배우자 최대", "배우자 상속 최대화 (30억 한도)",
            min info.net_inheritance SPOUSE_MAX_DEDUCTION,
            DeductionType.LUMP_SUM)]) ∧
      (min info.net_inheritance SPOUSE_MAX_DEDUCTION ≠
          calculate_spouse_legal_share_amount info →
        min SPOUSE_MIN_DEDUCTION info.net_inheritance ≠
          calculate_spouse_legal_share_amount info →
        min SPOUSE_MIN_DEDUCTION info.net_inheritance ≠
          min info.net_inheritance SPOUSE_MAX_DEDUCTION →
        generate_cases info =
          [("A: 법정상속분", "배우자 법정상속분 + 일괄공제 5억",
            calculate_spouse_legal_share_amount info, DeductionType.LUMP_SUM),
           ("B: 배우자 최대", "배우자 상속 최대화 (30억 한도)",
            min info.net_inheritance SPOUSE_MAX_DEDUCTION,
            DeductionType.LUMP_SUM),
           ("C: 배우자 최소", "배우자 상속 최소화 (5억)",
            min SPOUSE_MIN_DEDUCTION info.net_inheritance,
            DeductionType.LUMP_SUM)])) := by
  have hmax0 : max 0 info.net_inheritance = info.net_inheritance :=
    max_eq_right (net_inheritance_nonneg info)
  constructor
  · intro hs
    simp [generate_cases, hs]
  · intro hs
    refine ⟨?_, ?_, ?_, ?_, ?_⟩
    · intro h1 h2
      simp [generate_cases, hs, hmax0, dedupe_cases, relabel_all, h1, h2,
        relabel_legal_0]
    · intro h1 h2
      simp [generate_cases, hs, hmax0, dedupe_cases, relabel_all, h1, h2,
        relabel_legal_0, relabel_min_1]
    · intro h1 h2
      simp [generate_cases, hs, hmax0, dedupe_cases, relabel_all, h1, h2,
        relabel_legal_0, relabel_max_1]
    · intro h1 h2 h3
      simp [generate_cases, hs, hmax0, dedupe_cases, relabel_all, h1, h2, h3,
        relabel_legal_0, relabel_max_1]
    · intro h1 h2 h3
      simp [generate_cases, hs, hmax0, dedupe_cases, relabel_all, h1, h2, h3,
        relabel_legal_0, relabel_max_1, relabel_min_2]

/-- Witness for C6 on a spouseless estate and on a spousal estate whose three
candidate allocations are pairwise distinct. -/
theorem C6_witness :
    generate_cases nospouse_estate =
      [("A: 일괄공제", "일괄공제 5억원 적용", 0, DeductionType.LUMP_SUM),
       ("B: 항목별공제", "기초공제 2억 + 인적공제", 0, DeductionType.ITEMIZED)] ∧
    generate_cases wide_estate =
      [("A: 법정상속분", "배우자 법정상속분 + 일괄공제 5억",
        calculate_spouse_legal_share_amount wide_estate,
        DeductionType.LUMP_SUM),
       ("B: 배우자 최대", "배우자 상속 최대화 (30억 한도)",
        min wide_estate.net_inheritance SPOUSE_MAX_DEDUCTION,
        DeductionType.LUMP_SUM),
       ("C: 배우자 최소", "배우자 상속 최소화 (5억)",
        min SPOUSE_MIN_DEDUCTION wide_estate.net_inheritance,
        DeductionType.LUMP_SUM)] :=
  ⟨(C6_scenario_generation nospouse_estate).1 (by decide),
   ((C6_scenario_generation wide_estate).2 (by decide)).2.2.2.2 (by decide)
     (by decide) (by decide)⟩
